import Mathlib

/-
Verification development for the FastAPI-for-AI-Projects repository.

Shallow embedding conventions:
* Each endpoint handler becomes a pure Lean function on its (already
  framework-validated) parameters.  A handler that returns a plain value is a
  200 response, modelled as the pair `(200, body)` where the status matters; a
  handler that may `raise HTTPException` is modelled with `Except`.
* The in-memory "databases" (plain Python dicts) are modelled as association
  lists `List (key × value)`; `alistSet` reproduces Python dict assignment
  (overwrite in place, or append at the end for a fresh key) and `alistLookup`
  reproduces `dict.get`.
* Python floats are modelled as rationals; `round(x, 2)` becomes `round2`.
* Nondeterministic inputs (random ids, wall-clock timestamps) are passed in as
  explicit parameters.
-/

/-- HTTPException as raised by the handlers: a status code and a detail
string. -/
structure HTTPException where
  status_code : Nat
  detail : String
deriving DecidableEq, Repr

/-- Lookup in an association list with string keys, as Python `dict.get`. -/
def alistLookup {β : Type} : List (String × β) → String → Option β
  | [], _ => none
  | (k, v) :: rest, key => if k = key then some v else alistLookup rest key

/-- Python dict assignment `d[k] = v`: overwrite the entry in place if the key
is present, otherwise append the new entry at the end. -/
def alistSet {β : Type} : List (String × β) → String → β → List (String × β)
  | [], k, v => [(k, v)]
  | (k', v') :: rest, k, v =>
      if k' = k then (k, v) :: rest else (k', v') :: alistSet rest k v

/-- Integer-keyed dict lookup (for the dicts keyed by numeric ids). -/
def ilistLookup {β : Type} : List (Int × β) → Int → Option β
  | [], _ => none
  | (k, v) :: rest, key => if k = key then some v else ilistLookup rest key

namespace Intro

/-! Embedding of `01-introduction/main.py` (Brew Master Coffee Shop). -/

/-- One entry of the `coffee_menu` dict in `get_coffee_by_id`. -/
structure MenuCoffee where
  name : String
  price : ℚ
  caffeine_level : String
deriving DecidableEq, Repr

/-- The hardcoded `coffee_menu` dict, keyed by integer coffee id. -/
def coffee_menu : List (Int × MenuCoffee) :=
  [ (1, ⟨"Espresso", 2.50, "High"⟩),
    (2, ⟨"Cappuccino", 4.00, "Medium"⟩),
    (3, ⟨"Latte", 4.50, "Medium"⟩),
    (4, ⟨"Americano", 3.00, "High"⟩),
    (5, ⟨"Frappuccino", 5.50, "Low"⟩) ]

/-- Body of the `get_coffee_by_id` response: either the found coffee (returned
together with its id) or the error object `\x7b"error": ...\x7d`. -/
inductive CoffeeByIdBody where
  | found (coffee_id : Int) (coffee : MenuCoffee)
  | err (error : String)
deriving DecidableEq, Repr

/-- Handler `get_coffee_by_id`: looks the id up in `coffee_menu`; both branches
return a plain dict, hence an HTTP 200 response (first component). -/
def get_coffee_by_id (coffee_id : Int) : Nat × CoffeeByIdBody :=
  match ilistLookup coffee_menu coffee_id with
  | some coffee => (200, .found coffee_id coffee)
  | none => (200, .err "Sorry, we don\x27t have that coffee on our menu!")

/-- One entry of the `all_coffees` list in `search_coffee_menu`. -/
structure SearchCoffee where
  name : String
  price : ℚ
  caffeine_level : String
  mood : List String
deriving DecidableEq, Repr

/-- The hardcoded `all_coffees` list. -/
def all_coffees : List SearchCoffee :=
  [ ⟨"Espresso", 2.50, "High", ["energetic", "focused"]⟩,
    ⟨"Cappuccino", 4.00, "Medium", ["cozy", "social"]⟩,
    ⟨"Latte", 4.50, "Medium", ["relaxed", "comfort"]⟩,
    ⟨"Americano", 3.00, "High", ["simple", "strong"]⟩,
    ⟨"Decaf Herbal Tea", 3.50, "None", ["calm", "evening"]⟩ ]

/-- Condition of the first `continue` in the search loop
(`caffeine_level and coffee["caffeine_level"].lower() != caffeine_level.lower()`),
with Python truthiness: `None` or the empty string is falsy. -/
def caffMismatch (caffeine_level : Option String) (c : SearchCoffee) : Bool :=
  match caffeine_level with
  | none => false
  | some cl => cl ≠ "" && c.caffeine_level.toLower ≠ cl.toLower

/-- Condition of the second `continue` in the search loop
(`mood and mood.lower() not in [m.lower() for m in coffee["mood"]]`). -/
def moodMismatch (mood : Option String) (c : SearchCoffee) : Bool :=
  match mood with
  | none => false
  | some m => m ≠ "" && !((c.mood.map String.toLower).contains m.toLower)

/-- The filtering loop of `search_coffee_menu`. -/
def searchLoop (mood : Option String) (max_price : ℚ) (caffeine_level : Option String) :
    List SearchCoffee → List SearchCoffee
  | [] => []
  | c :: rest =>
      if c.price ≤ max_price then
        if caffMismatch caffeine_level c then
          searchLoop mood max_price caffeine_level rest
        else if moodMismatch mood c then
          searchLoop mood max_price caffeine_level rest
        else
          c :: searchLoop mood max_price caffeine_level rest
      else
        searchLoop mood max_price caffeine_level rest

/-- Response of `search_coffee_menu`. -/
structure SearchResult where
  mood : Option String
  max_price : ℚ
  caffeine_level : Option String
  recommendations : List SearchCoffee
  barista_note : String
deriving DecidableEq, Repr

/-- Handler `search_coffee_menu`. -/
def search_coffee_menu (mood : Option String) (max_price : ℚ)
    (caffeine_level : Option String) : SearchResult :=
  let results := searchLoop mood max_price caffeine_level all_coffees
  { mood := mood
    max_price := max_price
    caffeine_level := caffeine_level
    recommendations := results
    barista_note := "Found " ++ toString results.length ++ " perfect matches for you!" }

/-- Rounding to two decimal places, the embedding of Python `round(x, 2)` on
our rational model of floats. -/
def round2 (x : ℚ) : ℚ := (round (100 * x) : ℤ) / 100

/-- Response of `calculate_coffee_total`: the error object for a non-positive
price, or the full breakdown dict. -/
inductive CoffeeTotal where
  | err (error : String)
  | ok (coffee_price : ℚ) (tip_percentage : String) (tip_amount : ℚ)
      (total_cost : ℚ) (barista_happiness : String)
deriving DecidableEq, Repr

/-- Handler `calculate_coffee_total`. -/
def calculate_coffee_total (coffee_price : ℚ) (tip_percentage : ℤ) : CoffeeTotal :=
  if coffee_price ≤ 0 then
    .err "Coffee can\x27t be free! (Though we wish it could be)"
  else
    let tip_amount := coffee_price * ((tip_percentage : ℚ) / 100)
    let total := coffee_price + tip_amount
    .ok coffee_price (toString tip_percentage ++ "%") (round2 tip_amount) (round2 total)
      (if tip_percentage ≥ 15 then "😊" else "😐")

/-- Specification-side predicate for the search claim, written from the claim:
a coffee is returned iff its price is at most `max_price`, its caffeine level
equals a given caffeine filter case-insensitively, and a given mood filter
occurs in its mood list case-insensitively; a filter counts as given when it is
a non-empty string. -/
def specMatch (mood : Option String) (max_price : ℚ) (caffeine_level : Option String)
    (c : SearchCoffee) : Bool :=
  decide (c.price ≤ max_price) &&
  (match caffeine_level with
   | none => true
   | some cl => if cl = "" then true else decide (c.caffeine_level.toLower = cl.toLower)) &&
  (match mood with
   | none => true
   | some m => if m = "" then true else (c.mood.map String.toLower).contains m.toLower)

end Intro

namespace Routing

/-! Embedding of `04-routing/main.py` (Magical Digital Library). -/

/-- Result of the `get_library_card` dependency. -/
structure LibraryCard where
  level : String
  perks : List String
deriving DecidableEq, Repr

/-- Dependency `get_library_card`: inspects the optional `X-Library-Card`
header value. -/
def get_library_card (x_library_card : Option String) : Option LibraryCard :=
  match x_library_card with
  | none => none
  | some v =>
      if v = "GOLDEN_READER_2024" then
        some ⟨"premium", ["unlimited_borrowing", "early_access"]⟩
      else if v = "SILVER_READER_2024" then
        some ⟨"standard", ["standard_borrowing"]⟩
      else
        some ⟨"basic", ["limited_borrowing"]⟩

/-- One entry of the `magical_books` dict in `get_magical_book`. -/
structure MagicalBook where
  id : Int
  title : String
  author : String
  genre : String
  pages : Int
  description : String
  average_rating : ℚ
  magical_properties : String
  availability : String
deriving DecidableEq, Repr

/-- The hardcoded `magical_books` dict. -/
def magical_books : List (Int × MagicalBook) :=
  [ (1, ⟨1, "The Midnight Library", "Matt Haig", "fantasy", 288,
        "A dazzling novel about infinite possibilities and redemption", 4.2,
        "Shows alternate life paths", "✅ Available for immediate reading"⟩),
    (2, ⟨2, "Dune", "Frank Herbert", "sci_fi", 688,
        "The epic space opera that changed science fiction forever", 4.7,
        "Grants visions of the future", "⏳ 2 people ahead in queue"⟩),
    (3, ⟨3, "The Seven Husbands of Evelyn Hugo", "Taylor Jenkins Reid", "romance", 400,
        "A captivating novel about love, ambition, and secrets", 4.6,
        "Reveals hidden truths about love", "✅ Available for immediate reading"⟩) ]

/-- The `premium_features` block added for standard/premium card holders. -/
structure PremiumFeatures where
  audiobook_available : Bool
  discussion_notes : String
  author_interview : String
deriving DecidableEq, Repr

/-- One mock reader review. -/
structure ReaderReview where
  reviewer : String
  rating : Int
  comment : String
deriving DecidableEq, Repr

/-- Response of `get_magical_book` on success: the book dict, optionally
extended with premium features and reader reviews. -/
structure BookResponse where
  book : MagicalBook
  premium_features : Option PremiumFeatures
  reader_reviews : Option (List ReaderReview)
deriving DecidableEq, Repr

/-- Handler `get_magical_book`: raises HTTP 404 when the id is not a key of
`magical_books` (FastAPI additionally enforces the path constraint
`book_id ≥ 1` before the handler runs). -/
def get_magical_book (book_id : Int) (include_reviews : Bool)
    (library_card : Option LibraryCard) : Except HTTPException BookResponse :=
  match ilistLookup magical_books book_id with
  | none =>
      .error ⟨404, "📚 This book seems to have vanished into the magical mists! Try another ID."⟩
  | some book =>
      let premium : Option PremiumFeatures :=
        match library_card with
        | some card =>
            if card.level = "standard" ∨ card.level = "premium" then
              some ⟨true, "Available in the premium section", "Exclusive content unlocked! 🎤"⟩
            else none
        | none => none
      let reviews : Option (List ReaderReview) :=
        if include_reviews && library_card.isSome then
          some [ ⟨"BookLover123", 5, "Absolutely magical! Couldn\x27t put it down! ✨"⟩,
                 ⟨"ReadingWizard", 4, "Great character development and plot twists 📚"⟩,
                 ⟨"NightReader", 5, "This book changed my perspective on life! 🌟"⟩ ]
        else none
      .ok ⟨book, premium, reviews⟩

end Routing

namespace Async

/-! Embedding of `06-async/main.py` (Food Delivery App). -/

/-- One entry of `fake_db["restaurants"]`. -/
structure Restaurant where
  name : String
  cuisine : String
  rating : ℚ
deriving DecidableEq, Repr

/-- The hardcoded `fake_db["restaurants"]` dict. -/
def restaurants : List (String × Restaurant) :=
  [ ("resto_123", ⟨"The Spicy Spoon", "Indian", 4.7⟩),
    ("resto_456", ⟨"Pasta Paradise", "Italian", 4.5⟩),
    ("resto_789", ⟨"Sushi Supreme", "Japanese", 4.8⟩),
    ("resto_101", ⟨"Burger Bliss", "American", 4.2⟩),
    ("resto_202", ⟨"Taco Temple", "Mexican", 4.6⟩) ]

/-- Body of the `get_restaurant_info` response: the restaurant dict, or the
error object `\x7b"error": "Restaurant not found"\x7d`. -/
inductive RestaurantInfo where
  | found (r : Restaurant)
  | err (error : String)
deriving DecidableEq, Repr

/-- Handler `get_restaurant_info`: `fake_db["restaurants"].get(restaurant_id,
\x7b"error": "Restaurant not found"\x7d)`.  Both branches are plain returns,
hence HTTP 200 (the `await asyncio.sleep(3)` only simulates latency). -/
def get_restaurant_info (restaurant_id : String) : Nat × RestaurantInfo :=
  (200,
    match alistLookup restaurants restaurant_id with
    | some r => .found r
    | none => .err "Restaurant not found")

/-- One entry of `fake_db["orders"]`. -/
structure Order where
  id : String
  item : String
  status : String
  restaurant : String
deriving DecidableEq, Repr

/-- The `fake_db["orders"]` store (initially empty). -/
abbrev OrdersDb := List (String × Order)

/-- Response body of `place_order`. -/
structure PlaceOrderResponse where
  message : String
  order_id : String
deriving DecidableEq, Repr

/-- Handler `place_order`: builds `order_id` from the random draw
`random.randint(1000, 9999)` (passed in as `rand`), stores the order in
`fake_db["orders"]`, and returns the confirmation.  The payment background
task is scheduled after the response and is not part of the handler result. -/
def place_order (rand : Nat) (restaurant_id : String) (item : String)
    (orders : OrdersDb) : OrdersDb × PlaceOrderResponse :=
  let order_id := "order_" ++ toString rand
  let order_details : Order := ⟨order_id, item, "order_placed", restaurant_id⟩
  (alistSet orders order_id order_details, ⟨"Order placed successfully!", order_id⟩)

/-- The status sequence of `stream_order_status`. -/
def orderStatuses : List String :=
  ["preparing_food", "quality_check", "out_for_delivery", "delivered"]

/-- One SSE chunk `data: \x7bjson\x7d\n\n` as yielded by the event generator
(`json.dumps` of the event dict). -/
def sseChunk (order_id : String) (status : String) (timestamp : String) : String :=
  "data: \x7b\"order_id\": \"" ++ order_id ++ "\", \"status\": \"" ++ status ++
    "\", \"timestamp\": \"" ++ timestamp ++ "\"\x7d\n\n"

/-- The loop of `event_generator` inside `stream_order_status`: for each
status, if the order id is a key of the store, update the stored status and
yield a chunk; otherwise yield nothing.  `ts n` is the wall-clock timestamp
observed at iteration `n`. -/
def event_generator (ts : Nat → String) (order_id : String) :
    Nat → List String → OrdersDb → List String × OrdersDb
  | _, [], db => ([], db)
  | idx, st :: rest, db =>
      match alistLookup db order_id with
      | some o =>
          let db1 := alistSet db order_id { o with status := st }
          let r := event_generator ts order_id (idx + 1) rest db1
          (sseChunk order_id st (ts idx) :: r.1, r.2)
      | none => event_generator ts order_id (idx + 1) rest db

/-- Handler `stream_order_status`: the streamed chunks and the final state of
`fake_db["orders"]`. -/
def stream_order_status (ts : Nat → String) (order_id : String)
    (orders : OrdersDb) : List String × OrdersDb :=
  event_generator ts order_id 0 orderStatuses orders

/-- Events a `ConnectionManager` processes: `connect` (after `accept`) appends
the websocket, `disconnect` removes it.  Websockets are named by numbers. -/
inductive WSOp where
  | connect (ws : Nat)
  | disconnect (ws : Nat)
deriving DecidableEq, Repr

/-- ConnectionManager state: `active` is `self.active_connections` as the code
maintains it; `connected` and `disconnected` are ghost histories of all
connect/disconnect events, in order. -/
structure CMState where
  active : List Nat
  connected : List Nat
  disconnected : List Nat
deriving DecidableEq, Repr

/-- The initial manager: `self.active_connections = []` and empty histories. -/
def cmInit : CMState := ⟨[], [], []⟩

/-- One step of the manager: `connect` does
`self.active_connections.append(websocket)`, `disconnect` does
`self.active_connections.remove(websocket)` (removes the first occurrence). -/
def cmStep (s : CMState) : WSOp → CMState
  | .connect ws => ⟨s.active ++ [ws], s.connected ++ [ws], s.disconnected⟩
  | .disconnect ws => ⟨s.active.erase ws, s.connected, s.disconnected ++ [ws]⟩

/-- Run a sequence of events through the manager. -/
def cmRun (s : CMState) : List WSOp → CMState
  | [] => s
  | op :: rest => cmRun (cmStep s op) rest

/-- `broadcast`: send the message to every active connection, in list order. -/
def broadcast (s : CMState) (message : String) : List (Nat × String) :=
  s.active.map (fun connection => (connection, message))

/-- Wellformed event sequences, as produced by the websocket endpoint: each
connected websocket is a fresh object (never seen before), and only currently
active websockets disconnect (`list.remove` would raise otherwise). -/
def wfFrom (s : CMState) : List WSOp → Bool
  | [] => true
  | .connect ws :: rest =>
      decide (ws ∉ s.connected) && wfFrom (cmStep s (.connect ws)) rest
  | .disconnect ws :: rest =>
      decide (ws ∈ s.active) && wfFrom (cmStep s (.disconnect ws)) rest

/-- The manager invariant: connect events are distinct, every disconnected
websocket was connected, and the active list holds exactly the connected and
not yet disconnected websockets, in connection order. -/
def cmInv (s : CMState) : Prop :=
  s.connected.Nodup ∧ (∀ w ∈ s.disconnected, w ∈ s.connected) ∧
    s.active = s.connected.filter (fun w => decide (w ∉ s.disconnected))

end Async

namespace Security

/-! Embedding of `05-security/main.py` (Secure Concert API). -/

/-- `UserRole`: new users are guests by default. -/
inductive UserRole where
  | guest
  | organizer
deriving DecidableEq, Repr

/-- A user as stored in `db_users`. -/
structure UserInDB where
  username : String
  email : String
  role : UserRole
  hashed_password : String
deriving DecidableEq, Repr

/-- The registration request body (already framework-validated). -/
structure UserCreate where
  username : String
  email : String
  password : String
deriving DecidableEq, Repr

/-- The in-memory `db_users` store. -/
abbrev UsersDb := List (String × UserInDB)

/-- Handler `register_user`, parameterised by the (salted, hence
nondeterministic) bcrypt hash `get_password_hash`.  Returns the store after
the request together with the outcome. -/
def register_user (get_password_hash : String → String) (user_data : UserCreate)
    (db_users : UsersDb) : UsersDb × Except HTTPException UserInDB :=
  if (alistLookup db_users user_data.username).isSome then
    (db_users, .error ⟨400, "Username already registered"⟩)
  else
    let hashed_password := get_password_hash user_data.password
    let user_in_db : UserInDB :=
      ⟨user_data.username, user_data.email, .guest, hashed_password⟩
    (alistSet db_users user_data.username user_in_db, .ok user_in_db)

end Security

namespace ReqResp

/-! Embedding of `05-request-response/main.py` (InstaConnect). -/

/-- The custom exception `InstaConnectError`. -/
structure InstaConnectError where
  message : String
  error_code : String
deriving DecidableEq, Repr

/-- The JSON response produced by the registered exception handler. -/
structure JSONErrorResponse where
  status_code : Nat
  error : String
  message : String
  support : String
deriving DecidableEq, Repr

/-- The registered `instaconnect_exception_handler`: always a 400 JSONResponse
carrying the exception fields and a fixed support string. -/
def instaconnect_exception_handler (exc : InstaConnectError) : JSONErrorResponse :=
  { status_code := 400
    error := exc.error_code
    message := exc.message
    support := "Contact support@instaconnect.com for help" }

/-- The mock author profile embedded in post responses. -/
structure UserProfile where
  id : Int
  username : String
  full_name : String
  bio : String
  followers_count : Int
  following_count : Int
  posts_count : Int
  verified : Bool
  joined_date : String
deriving DecidableEq, Repr

/-- The success body of `get_post_details`. -/
structure PostResponse where
  id : Int
  content : String
  post_type : String
  author : UserProfile
  created_at : String
  likes_count : Int
  comments_count : Int
  shares_count : Int
  privacy : String
  tags : List String
  location : String
  media_url : String
deriving DecidableEq, Repr

/-- Handler `get_post_details`: raises `InstaConnectError` for every id
outside `[98765, 98766, 98767]`, otherwise returns the mock post.  `now` is
the wall-clock value of `datetime.now()`. -/
def get_post_details (now : String) (post_id : Int) (include_comments : Bool) :
    Except InstaConnectError PostResponse :=
  if ([98765, 98766, 98767] : List Int).contains post_id then
    .ok
      { id := post_id
        content := "Just watched the most amazing sunset! 🌅 Nature never fails to inspire me."
        post_type := "image"
        author :=
          ⟨12345, "alexj_photos", "Alex Johnson", "📸 Photography enthusiast",
            1250, 340, 89, false, "2023-01-15"⟩
        created_at := now
        likes_count := 42
        comments_count := 8
        shares_count := 3
        privacy := "public"
        tags := ["sunset", "nature", "photography"]
        location := "Golden Gate Bridge, SF"
        media_url := "https://images.instaconnect.com/sunset_golden_gate.jpg" }
  else
    .error
      { message := "Post #" ++ toString post_id ++ " seems to have vanished into the digital void! 🌌"
        error_code := "POST_NOT_FOUND" }

/-- The special characters accepted by the password validator. -/
def passwordSpecials : List Char := "!@#$%^&*()_+-=[]\x7b\x7d|;:,.<>?".toList

/-- The `UserSignup.password_strength` validator: three sequential checks on
the computed content of the password, each raising a `ValueError`. -/
def password_strength (v : String) : Except String String :=
  if !v.toList.any Char.isDigit then
    .error "Password must contain at least one number"
  else if !v.toList.any Char.isUpper then
    .error "Password must contain at least one uppercase letter"
  else if !v.toList.any (fun ch => passwordSpecials.contains ch) then
    .error "Password must contain at least one special character"
  else
    .ok v

end ReqResp

namespace Pyd

/-! Embedding of the `ValidatedRecipe` model of `03-pydantic/main.py`. -/

/-- The recipe difficulty enumeration. -/
inductive DifficultyLevel where
  | beginner
  | intermediate
  | advanced
  | expert
deriving DecidableEq, Repr

/-- The raw fields of a `ValidatedRecipe` submission. -/
structure ValidatedRecipeInput where
  name : String
  description : String
  chef_email : String
  prep_time_minutes : Int
  cook_time_minutes : Int
  servings : Int
  calories_per_serving : Int
  difficulty : DifficultyLevel
deriving DecidableEq, Repr

/-- The declarative `Field(...)` constraints of `ValidatedRecipe`, one Bool per
field; `emailOk` stands for the framework `EmailStr` validator. -/
def validatedRecipeFieldsOk (emailOk : String → Bool) (r : ValidatedRecipeInput) : Bool :=
  (3 ≤ r.name.length && r.name.length ≤ 100) &&
  (20 ≤ r.description.length && r.description.length ≤ 500) &&
  emailOk r.chef_email &&
  (5 < r.prep_time_minutes && r.prep_time_minutes ≤ 240) &&
  (1 < r.cook_time_minutes && r.cook_time_minutes ≤ 480) &&
  (1 < r.servings && r.servings ≤ 20) &&
  (50 < r.calories_per_serving && r.calories_per_serving ≤ 2000)

/-- Custom validator `prep_time_reasonable`: raises when `v > 180`. -/
def prep_time_reasonable (r : ValidatedRecipeInput) : Bool :=
  !(r.prep_time_minutes > 180)

/-- Custom validator `cook_time_makes_sense`: when `prep_time_minutes` passed
its own validation (so it is in `values`), raises when the total exceeds 600
minutes. -/
def cook_time_makes_sense (prepAvailable : Bool) (r : ValidatedRecipeInput) : Bool :=
  if prepAvailable then !(r.cook_time_minutes + r.prep_time_minutes > 600) else true

/-- Whole-model validation of `ValidatedRecipe`: the declarative field
constraints plus the two custom validators, where the cross-field validator
only sees `prep_time_minutes` if that field validated. -/
def validateValidatedRecipe (emailOk : String → Bool) (r : ValidatedRecipeInput) : Bool :=
  validatedRecipeFieldsOk emailOk r && prep_time_reasonable r &&
    cook_time_makes_sense
      ((5 < r.prep_time_minutes && r.prep_time_minutes ≤ 240) && prep_time_reasonable r) r

/-- A concrete recipe whose every field individually satisfies its own
constraint but whose total time exceeds 10 hours. -/
def longRecipe : ValidatedRecipeInput :=
  { name := "Slow Braised Feast"
    description := "A very slow braised dish for patient cooks."
    chef_email := "chef@example.com"
    prep_time_minutes := 180
    cook_time_minutes := 480
    servings := 4
    calories_per_serving := 500
    difficulty := .intermediate }

/-- The email validator used for concrete examples. -/
def exampleEmailOk (s : String) : Bool := s = "chef@example.com"

end Pyd

/-! ## Helper lemmas -/

/-- Looking up a key right after setting it always yields the new value. -/
theorem alistLookup_set_self {β : Type} (db : List (String × β)) (k : String) (v : β) :
    alistLookup (alistSet db k v) k = some v := by
  induction db with
  | nil => simp [alistSet, alistLookup]
  | cons hd tl ih =>
      obtain ⟨k', v'⟩ := hd
      by_cases h : k' = k
      · simp [alistSet, alistLookup, h]
      · simp [alistSet, alistLookup, h, ih]

/-- Setting a fresh key appends the entry at the end of the dict. -/
theorem alistSet_fresh {β : Type} (db : List (String × β)) (k : String) (v : β)
    (h : alistLookup db k = none) : alistSet db k v = db ++ [(k, v)] := by
  induction db with
  | nil => simp [alistSet]
  | cons hd tl ih =>
      obtain ⟨k', v'⟩ := hd
      by_cases hk : k' = k
      · simp [alistLookup, hk] at h
      · simp only [alistSet, hk, if_false, List.cons_append, List.cons.injEq, true_and]
        exact ih (by simpa [alistLookup, hk] using h)

namespace Intro

/-- The claim-side predicate agrees with the conjunction of the loop
conditions: to be kept, a coffee must be affordable and fail both `continue`
conditions. -/
theorem specMatch_eq (mood : Option String) (max_price : ℚ)
    (caffeine_level : Option String) (c : SearchCoffee) :
    specMatch mood max_price caffeine_level c =
      (decide (c.price ≤ max_price) && !caffMismatch caffeine_level c &&
        !moodMismatch mood c) := by
  unfold specMatch caffMismatch moodMismatch
  cases caffeine_level with
  | none =>
      cases mood with
      | none => simp
      | some m =>
          by_cases hm : m = "" <;>
            simp [hm, Bool.and_comm, Bool.and_assoc, Bool.and_left_comm]
  | some cl =>
      cases mood with
      | none =>
          by_cases hcl : cl = "" <;> simp [hcl, beq_iff_eq]
      | some m =>
          by_cases hcl : cl = "" <;> by_cases hm : m = "" <;>
            simp [hcl, hm, beq_iff_eq]

/-- The search loop returns exactly the coffees selected by the claim-side
predicate, in list order. -/
theorem searchLoop_eq_filter (mood : Option String) (max_price : ℚ)
    (caffeine_level : Option String) (l : List SearchCoffee) :
    searchLoop mood max_price caffeine_level l =
      l.filter (specMatch mood max_price caffeine_level) := by
  induction l with
  | nil => rfl
  | cons c rest ih =>
      simp only [searchLoop, ih, List.filter_cons, specMatch_eq]
      by_cases hp : c.price ≤ max_price
      · cases hcaff : caffMismatch caffeine_level c
        · cases hmood : moodMismatch mood c
          · simp [hp, hcaff, hmood]
          · simp [hp, hcaff, hmood]
        · simp [hp, hcaff]
      · simp [hp]

end Intro

/-! ## Claim theorems -/

/-- C1 counterexample: for the unknown coffee id 6, `get_coffee_by_id` does
not yield an HTTP 404 response; it returns a plain 200 response whose body is
the error object. -/
theorem C1_counterexample :
    Intro.get_coffee_by_id 6 =
      (200, .err "Sorry, we don\x27t have that coffee on our menu!") ∧
    (Intro.get_coffee_by_id 6).1 ≠ 404 :=
  ⟨rfl, by decide⟩

/-- C1 (amended): of the three mock lookups, only `get_magical_book` answers
an unknown identifier with HTTP 404; `get_coffee_by_id` and
`get_restaurant_info` answer a 200 response whose body is an error object. -/
theorem C1_theorem :
    (∀ coffee_id : Int, ilistLookup Intro.coffee_menu coffee_id = none →
        Intro.get_coffee_by_id coffee_id =
          (200, .err "Sorry, we don\x27t have that coffee on our menu!")) ∧
    (∀ (book_id : Int) (include_reviews : Bool) (card : Option Routing.LibraryCard),
        ilistLookup Routing.magical_books book_id = none →
        Routing.get_magical_book book_id include_reviews card =
          .error ⟨404,
            "📚 This book seems to have vanished into the magical mists! Try another ID."⟩) ∧
    (∀ restaurant_id : String, alistLookup Async.restaurants restaurant_id = none →
        Async.get_restaurant_info restaurant_id = (200, .err "Restaurant not found")) := by
  refine ⟨?_, ?_, ?_⟩
  · intro cid h
    simp [Intro.get_coffee_by_id, h]
  · intro bid ir card h
    simp [Routing.get_magical_book, h]
  · intro rid h
    simp [Async.get_restaurant_info, h]

/-- C1 witness: the amended statement at the concrete unknown ids 6, 99 and
"resto_999". -/
theorem C1_witness :
    Intro.get_coffee_by_id 6 =
      (200, .err "Sorry, we don\x27t have that coffee on our menu!") ∧
    Routing.get_magical_book 99 false none =
      .error ⟨404,
        "📚 This book seems to have vanished into the magical mists! Try another ID."⟩ ∧
    Async.get_restaurant_info "resto_999" = (200, .err "Restaurant not found") :=
  ⟨C1_theorem.1 6 rfl, C1_theorem.2.1 99 false none rfl, C1_theorem.2.2 "resto_999" rfl⟩

/-- C2 counterexample: the handler `place_order` does not leave the
`fake_db["orders"]` store unchanged: on the empty store, one request produces
a non-empty store. -/
theorem C2_counterexample :
    (Async.place_order 1234 "resto_123" "Naan" []).1 ≠ ([] : Async.OrdersDb) := by
  simp [Async.place_order, alistSet]

/-- C2 (amended): not every handler is stateless: `place_order` always writes
the newly created order into `fake_db["orders"]` under its generated order id
(appending it when the id is fresh, so the store after the request differs
from the store before it) and returns the confirmation, so two identical
requests can observe different store states. -/
theorem C2_theorem :
    ∀ (rand : Nat) (restaurant_id item : String) (orders : Async.OrdersDb),
      (Async.place_order rand restaurant_id item orders).1 =
        alistSet orders ("order_" ++ toString rand)
          ⟨"order_" ++ toString rand, item, "order_placed", restaurant_id⟩ ∧
      alistLookup (Async.place_order rand restaurant_id item orders).1
          ("order_" ++ toString rand) =
        some ⟨"order_" ++ toString rand, item, "order_placed", restaurant_id⟩ ∧
      (alistLookup orders ("order_" ++ toString rand) = none →
        (Async.place_order rand restaurant_id item orders).1 =
          orders ++ [("order_" ++ toString rand,
            ⟨"order_" ++ toString rand, item, "order_placed", restaurant_id⟩)] ∧
        (Async.place_order rand restaurant_id item orders).1 ≠ orders) ∧
      (Async.place_order rand restaurant_id item orders).2 =
        ⟨"Order placed successfully!", "order_" ++ toString rand⟩ := by
  intro rand rid item orders
  refine ⟨rfl, alistLookup_set_self .., ?_, rfl⟩
  intro h
  have hfresh := alistSet_fresh orders ("order_" ++ toString rand)
    (⟨"order_" ++ toString rand, item, "order_placed", rid⟩ : Async.Order) h
  constructor
  · simpa [Async.place_order] using hfresh
  · show alistSet orders _ _ ≠ orders
    rw [hfresh]
    intro heq
    have := congrArg List.length heq
    simp at this

/-- C2 witness: the amended statement at a concrete request on the empty
store. -/
theorem C2_witness :
    (Async.place_order 1234 "resto_123" "Naan" []).1 =
      [] ++ [("order_" ++ toString 1234,
        ⟨"order_" ++ toString 1234, "Naan", "order_placed", "resto_123"⟩)] ∧
    (Async.place_order 1234 "resto_123" "Naan" []).1 ≠ ([] : Async.OrdersDb) :=
  (C2_theorem 1234 "resto_123" "Naan" []).2.2.1 rfl

/-- C6: for a positive price the handler returns the rounded tip and total
exactly as claimed, and for a non-positive price it returns the error object. -/
theorem C6_theorem :
    ∀ (coffee_price : ℚ) (tip_percentage : ℤ),
      (0 < coffee_price →
        Intro.calculate_coffee_total coffee_price tip_percentage =
          .ok coffee_price (toString tip_percentage ++ "%")
            (Intro.round2 (coffee_price * tip_percentage / 100))
            (Intro.round2 (coffee_price + coffee_price * tip_percentage / 100))
            (if tip_percentage ≥ 15 then "😊" else "😐")) ∧
      (coffee_price ≤ 0 →
        Intro.calculate_coffee_total coffee_price tip_percentage =
          .err "Coffee can\x27t be free! (Though we wish it could be)") := by
  intro p t
  constructor
  · intro hp
    unfold Intro.calculate_coffee_total
    rw [if_neg (not_le.mpr hp), mul_div_assoc]
  · intro hp
    unfold Intro.calculate_coffee_total
    rw [if_pos hp]

/-- C6 witness: the positive-price branch at price 4 and tip 15. -/
theorem C6_witness :
    Intro.calculate_coffee_total 4 15 =
      .ok 4 (toString (15 : ℤ) ++ "%") (Intro.round2 (4 * (15 : ℤ) / 100))
        (Intro.round2 (4 + 4 * (15 : ℤ) / 100))
        (if (15 : ℤ) ≥ 15 then "😊" else "😐") :=
  (C6_theorem 4 15).1 (by norm_num)

/-- C7: the search returns, in the order of the hardcoded list, exactly the
coffees selected by the claim predicate (price within budget, caffeine level
equal case-insensitively when that filter is given, mood contained
case-insensitively when that filter is given), and the barista note counts the
returned recommendations. -/
theorem C7_theorem :
    ∀ (mood : Option String) (max_price : ℚ) (caffeine_level : Option String),
      (Intro.search_coffee_menu mood max_price caffeine_level).recommendations =
        Intro.all_coffees.filter (Intro.specMatch mood max_price caffeine_level) ∧
      (Intro.search_coffee_menu mood max_price caffeine_level).barista_note =
        "Found " ++
          toString
            (Intro.search_coffee_menu mood max_price caffeine_level).recommendations.length
          ++ " perfect matches for you!" := by
  intro mood mp cl
  exact ⟨by simp [Intro.search_coffee_menu, Intro.searchLoop_eq_filter], rfl⟩

/-- C3: whenever `get_post_details` raises `InstaConnectError` (which it does
for every post id outside \x7b98765, 98766, 98767\x7d), the registered handler
translates it into an HTTP 400 JSON response carrying exactly the exception
error code and message plus the fixed support string, and the handler never
produces any other status code. -/
theorem C3_theorem :
    (∀ (now : String) (post_id : Int) (include_comments : Bool),
        post_id ∉ ([98765, 98766, 98767] : List Int) →
        ∃ exc : ReqResp.InstaConnectError,
          ReqResp.get_post_details now post_id include_comments = .error exc ∧
          ReqResp.instaconnect_exception_handler exc =
            ⟨400, exc.error_code, exc.message,
              "Contact support@instaconnect.com for help"⟩) ∧
    (∀ exc : ReqResp.InstaConnectError,
        (ReqResp.instaconnect_exception_handler exc).status_code = 400) := by
  constructor
  · intro now pid ic h
    refine ⟨⟨"Post #" ++ toString pid ++ " seems to have vanished into the digital void! 🌌",
      "POST_NOT_FOUND"⟩, ?_, rfl⟩
    simp [ReqResp.get_post_details, h]
  · intro exc
    rfl

/-- C3 witness: the unknown post id 5 is translated to the 400 JSON response. -/
theorem C3_witness :
    ∃ exc : ReqResp.InstaConnectError,
      ReqResp.get_post_details "2024-01-15T18:30:00" 5 false = .error exc ∧
      ReqResp.instaconnect_exception_handler exc =
        ⟨400, exc.error_code, exc.message, "Contact support@instaconnect.com for help"⟩ :=
  C3_theorem.1 "2024-01-15T18:30:00" 5 false (by decide)

/-- C4 counterexample: `longRecipe` satisfies every single-field constraint of
`ValidatedRecipe` (including the single-field validator prep time at most 180)
yet is rejected, because of the cross-field total-time rule; hence validation
is not purely field-level. -/
theorem C4_counterexample :
    Pyd.validatedRecipeFieldsOk Pyd.exampleEmailOk Pyd.longRecipe = true ∧
    Pyd.prep_time_reasonable Pyd.longRecipe = true ∧
    Pyd.validateValidatedRecipe Pyd.exampleEmailOk Pyd.longRecipe = false :=
  ⟨rfl, rfl, rfl⟩

/-- C4 (amended): validation of `ValidatedRecipe` is the conjunction of the
per-field constraints with the custom validators prep time at most 180 and the
cross-field rule prep plus cook at most 600 (a relation between two fields);
and `UserSignup.password_strength` accepts a password exactly when its
computed content contains a digit, an uppercase letter and a special
character. -/
theorem C4_theorem :
    (∀ (emailOk : String → Bool) (r : Pyd.ValidatedRecipeInput),
        Pyd.validateValidatedRecipe emailOk r =
          (Pyd.validatedRecipeFieldsOk emailOk r &&
            decide (r.prep_time_minutes ≤ 180) &&
            decide (r.prep_time_minutes + r.cook_time_minutes ≤ 600))) ∧
    (∀ v : String,
        ReqResp.password_strength v = .ok v ↔
          (v.toList.any Char.isDigit && v.toList.any Char.isUpper &&
            v.toList.any (fun ch => ReqResp.passwordSpecials.contains ch)) = true) := by
  constructor
  · intro emailOk r
    unfold Pyd.validateValidatedRecipe Pyd.cook_time_makes_sense Pyd.prep_time_reasonable
    cases hf : Pyd.validatedRecipeFieldsOk emailOk r with
    | false => simp
    | true =>
        have hp : 5 < r.prep_time_minutes ∧ r.prep_time_minutes ≤ 240 := by
          unfold Pyd.validatedRecipeFieldsOk at hf
          simp only [Bool.and_eq_true, decide_eq_true_eq] at hf
          omega
        by_cases h180 : r.prep_time_minutes > 180
        · simp [h180, show ¬ r.prep_time_minutes ≤ 180 by omega]
        · by_cases h600 : r.cook_time_minutes + r.prep_time_minutes > 600
          · simp [h180, hp.1, hp.2, h600, show r.prep_time_minutes ≤ 180 by omega,
              show ¬ r.prep_time_minutes + r.cook_time_minutes ≤ 600 by omega]
          · simp [h180, hp.1, hp.2, h600, show r.prep_time_minutes ≤ 180 by omega,
              show r.prep_time_minutes + r.cook_time_minutes ≤ 600 by omega]
  · intro v
    unfold ReqResp.password_strength
    cases hd : v.toList.any Char.isDigit
    · simp [hd]
    · cases hu : v.toList.any Char.isUpper
      · simp [hd, hu]
      · cases hs : v.toList.any (fun ch => ReqResp.passwordSpecials.contains ch)
        · simp [hd, hu, hs]
        · simp [hd, hu, hs]

/-- C5: `register_user` raises HTTP 400 "Username already registered" exactly
when the username is already a key of `db_users`, leaving the store unchanged
in that case; otherwise it appends exactly one new user with role guest whose
hashed password is the bcrypt hash of the submitted password (and not the
plain password itself), and returns that user. -/
theorem C5_theorem :
    ∀ (get_password_hash : String → String) (u : Security.UserCreate)
      (db : Security.UsersDb),
      ((∃ e : HTTPException,
          (Security.register_user get_password_hash u db).2 = .error e ∧
          e.status_code = 400 ∧ e.detail = "Username already registered") ↔
        (alistLookup db u.username).isSome = true) ∧
      ((alistLookup db u.username).isSome = true →
        (Security.register_user get_password_hash u db).1 = db) ∧
      (alistLookup db u.username = none →
        ∃ user : Security.UserInDB,
          (Security.register_user get_password_hash u db).2 = .ok user ∧
          (Security.register_user get_password_hash u db).1 =
            db ++ [(u.username, user)] ∧
          user.username = u.username ∧ user.role = .guest ∧
          user.hashed_password = get_password_hash u.password ∧
          (get_password_hash u.password ≠ u.password →
            user.hashed_password ≠ u.password)) := by
  intro hash u db
  by_cases h : (alistLookup db u.username).isSome
  · refine ⟨⟨fun _ => h, fun _ => ?_⟩, fun _ => by simp [Security.register_user, h], ?_⟩
    · exact ⟨⟨400, "Username already registered"⟩, by simp [Security.register_user, h],
        rfl, rfl⟩
    · intro hn
      rw [hn] at h
      simp at h
  · have hn : alistLookup db u.username = none := by
      cases hq : alistLookup db u.username with
      | none => rfl
      | some w => rw [hq] at h; simp at h
    refine ⟨⟨?_, fun hs => absurd hs h⟩, fun hs => absurd hs h, ?_⟩
    · rintro ⟨e, he, -, -⟩
      simp [Security.register_user, h] at he
    · intro _
      refine ⟨⟨u.username, u.email, .guest, hash u.password⟩,
        by simp [Security.register_user, h], ?_, rfl, rfl, rfl, fun hne => hne⟩
      simp [Security.register_user, h, alistSet_fresh db u.username _ hn]

/-- C5 witness: registering a fresh username on the empty store inserts one
guest user whose stored password is the hash, not the plaintext. -/
theorem C5_witness :
    ∃ user : Security.UserInDB,
      (Security.register_user (fun p => String.append "$2b$12$" p)
          ⟨"alice", "alice@example.com", "secretpass1"⟩ ([] : Security.UsersDb)).2 =
        .ok user ∧
      user.role = .guest ∧ user.hashed_password ≠ "secretpass1" := by
  obtain ⟨user, hok, -, -, hrole, -, hne⟩ :=
    (C5_theorem (fun p => String.append "$2b$12$" p)
      ⟨"alice", "alice@example.com", "secretpass1"⟩ []).2.2 rfl
  exact ⟨user, hok, hrole, hne (by decide)⟩

/-- C8: for an order id present in the store, the stream emits exactly four
SSE chunks whose statuses are, in order, preparing_food, quality_check,
out_for_delivery and delivered, and the stored order ends with status
delivered; for an absent order id the stream emits no chunks and leaves the
store untouched. -/
theorem C8_theorem :
    ∀ (ts : Nat → String) (order_id : String) (orders : Async.OrdersDb),
      (∀ o : Async.Order, alistLookup orders order_id = some o →
        (Async.stream_order_status ts order_id orders).1 =
          [Async.sseChunk order_id "preparing_food" (ts 0),
           Async.sseChunk order_id "quality_check" (ts 1),
           Async.sseChunk order_id "out_for_delivery" (ts 2),
           Async.sseChunk order_id "delivered" (ts 3)] ∧
        alistLookup (Async.stream_order_status ts order_id orders).2 order_id =
          some ⟨o.id, o.item, "delivered", o.restaurant⟩) ∧
      (alistLookup orders order_id = none →
        (Async.stream_order_status ts order_id orders).1 = [] ∧
        (Async.stream_order_status ts order_id orders).2 = orders) := by
  intro ts oid orders
  constructor
  · intro o h
    simp [Async.stream_order_status, Async.orderStatuses, Async.event_generator, h,
      alistLookup_set_self]
  · intro h
    simp [Async.stream_order_status, Async.orderStatuses, Async.event_generator, h]

/-- C8 witness: the stream at a one-order store (four chunks, final status
delivered) and at the empty store (no chunks). -/
theorem C8_witness :
    ((Async.stream_order_status toString "order_1"
        [("order_1", ⟨"order_1", "Naan", "order_placed", "resto_123"⟩)]).1 =
      [Async.sseChunk "order_1" "preparing_food" (toString 0),
       Async.sseChunk "order_1" "quality_check" (toString 1),
       Async.sseChunk "order_1" "out_for_delivery" (toString 2),
       Async.sseChunk "order_1" "delivered" (toString 3)] ∧
     alistLookup (Async.stream_order_status toString "order_1"
        [("order_1", ⟨"order_1", "Naan", "order_placed", "resto_123"⟩)]).2 "order_1" =
      some ⟨"order_1", "Naan", "delivered", "resto_123"⟩) ∧
    ((Async.stream_order_status toString "order_1" ([] : Async.OrdersDb)).1 = [] ∧
     (Async.stream_order_status toString "order_1" ([] : Async.OrdersDb)).2 = []) :=
  ⟨(C8_theorem toString "order_1" _).1 ⟨"order_1", "Naan", "order_placed", "resto_123"⟩ rfl,
   (C8_theorem toString "order_1" []).2 rfl⟩

/-- C9: the library-card dependency is total: it returns none exactly when the
header is absent, level premium exactly for GOLDEN_READER_2024, level standard
exactly for SILVER_READER_2024, and level basic for every other header value,
never an error. -/
theorem C9_theorem :
    ∀ x_library_card : Option String,
      (Routing.get_library_card x_library_card = none ↔ x_library_card = none) ∧
      (∀ card : Routing.LibraryCard,
        Routing.get_library_card x_library_card = some card →
          ((card.level = "premium" ↔ x_library_card = some "GOLDEN_READER_2024") ∧
           (card.level = "standard" ↔ x_library_card = some "SILVER_READER_2024") ∧
           (x_library_card ≠ some "GOLDEN_READER_2024" →
             x_library_card ≠ some "SILVER_READER_2024" →
             card = ⟨"basic", ["limited_borrowing"]⟩))) := by
  intro x
  cases x with
  | none => simp [Routing.get_library_card]
  | some v =>
      by_cases h1 : v = "GOLDEN_READER_2024"
      · subst h1
        refine ⟨by simp [Routing.get_library_card], ?_⟩
        intro card hc
        simp [Routing.get_library_card] at hc
        subst hc
        exact ⟨by simp, by simp, fun hne _ => absurd rfl hne⟩
      · by_cases h2 : v = "SILVER_READER_2024"
        · subst h2
          refine ⟨by simp [Routing.get_library_card, h1], ?_⟩
          intro card hc
          simp [Routing.get_library_card, h1] at hc
          subst hc
          exact ⟨by simp, by simp, fun _ hne => absurd rfl hne⟩
        · refine ⟨by simp [Routing.get_library_card, h1, h2], ?_⟩
          intro card hc
          simp [Routing.get_library_card, h1, h2] at hc
          subst hc
          refine ⟨by simp [h1], by simp [h2], fun _ _ => rfl⟩

/-- C9 witness: the characterization applied to the golden, silver and an
unrecognized header value. -/
theorem C9_witness :
    (("premium" : String) = "premium" ↔
      (some "GOLDEN_READER_2024" : Option String) = some "GOLDEN_READER_2024") ∧
    (Routing.LibraryCard.mk "basic" ["limited_borrowing"] =
      ⟨"basic", ["limited_borrowing"]⟩) :=
  ⟨((C9_theorem (some "GOLDEN_READER_2024")).2
      ⟨"premium", ["unlimited_borrowing", "early_access"]⟩ rfl).1,
   ((C9_theorem (some "A_REGULAR_CARD")).2
      ⟨"basic", ["limited_borrowing"]⟩ rfl).2.2 (by decide) (by decide)⟩

/-- Running the manager preserves its invariant on wellformed event
sequences. -/
theorem cmRun_inv :
    ∀ (ops : List Async.WSOp) (s : Async.CMState),
      Async.cmInv s → Async.wfFrom s ops = true → Async.cmInv (Async.cmRun s ops) := by
  intro ops
  induction ops with
  | nil =>
      intro s hs _
      exact hs
  | cons op rest ih =>
      intro s hs hwf
      obtain ⟨hnd, hsub, hact⟩ := hs
      cases op with
      | connect ws =>
          rw [Async.wfFrom, Bool.and_eq_true, decide_eq_true_eq] at hwf
          obtain ⟨hfresh, hwf⟩ := hwf
          refine ih _ ⟨?_, ?_, ?_⟩ hwf
          · simp [Async.cmStep, List.nodup_append, hnd, hfresh]
          · intro w hw
            simp only [Async.cmStep] at hw ⊢
            exact List.mem_append_left _ (hsub w hw)
          · show s.active ++ [ws] =
              (s.connected ++ [ws]).filter
                (fun w => decide (w ∉ (Async.cmStep s (.connect ws)).disconnected))
            have hws : ws ∉ s.disconnected := fun hmem => hfresh (hsub ws hmem)
            simp only [Async.cmStep]
            rw [List.filter_append, hact]
            simp [hws]
      | disconnect ws =>
          rw [Async.wfFrom, Bool.and_eq_true, decide_eq_true_eq] at hwf
          obtain ⟨hmem, hwf⟩ := hwf
          refine ih _ ⟨hnd, ?_, ?_⟩ hwf
          · intro w hw
            simp only [Async.cmStep, List.mem_append, List.mem_singleton] at hw
            rcases hw with hw | hw
            · exact hsub w hw
            · subst hw
              rw [hact] at hmem
              exact (List.mem_filter.mp hmem).1
          · show s.active.erase ws =
              s.connected.filter
                (fun w => decide (w ∉ (Async.cmStep s (.disconnect ws)).disconnected))
            have hndf : (s.connected.filter (fun w => decide (w ∉ s.disconnected))).Nodup :=
              hnd.filter _
            rw [hact, hndf.erase_eq_filter, List.filter_filter]
            apply List.filter_congr
            intro a _
            simp only [Async.cmStep, List.mem_append, List.mem_singleton]
            by_cases hda : a ∈ s.disconnected
            · simp [hda]
            · by_cases haw : a = ws
              · simp [hda, haw]
              · simp [hda, haw]

/-- C10: the connection manager keeps its active list equal to the connected
and not yet disconnected websockets, in connection order; connect appends the
websocket, disconnect removes exactly that websocket (the count of that
websocket drops by one and all other counts are unchanged), and broadcast
sends the message once to every active connection in connection order. -/
theorem C10_theorem :
    (∀ ops : List Async.WSOp, Async.wfFrom Async.cmInit ops = true →
        (Async.cmRun Async.cmInit ops).active =
          (Async.cmRun Async.cmInit ops).connected.filter
            (fun w => decide (w ∉ (Async.cmRun Async.cmInit ops).disconnected))) ∧
    (∀ (s : Async.CMState) (ws : Nat),
        (Async.cmStep s (.connect ws)).active = s.active ++ [ws]) ∧
    (∀ (s : Async.CMState) (ws : Nat),
        (Async.cmStep s (.disconnect ws)).active = s.active.erase ws ∧
        (Async.cmStep s (.disconnect ws)).active.count ws = s.active.count ws - 1 ∧
        (∀ v : Nat, v ≠ ws →
          (Async.cmStep s (.disconnect ws)).active.count v = s.active.count v)) ∧
    (∀ (s : Async.CMState) (message : String),
        (Async.broadcast s message).map Prod.fst = s.active ∧
        ∀ p ∈ Async.broadcast s message, p.2 = message) := by
  refine ⟨?_, fun s ws => rfl, ?_, ?_⟩
  · intro ops hwf
    exact (cmRun_inv ops Async.cmInit ⟨List.nodup_nil, fun w hw => hw, rfl⟩ hwf).2.2
  · intro s ws
    refine ⟨rfl, List.count_erase_self ws s.active, ?_⟩
    intro v hv
    exact List.count_erase_of_ne hv s.active
  · intro s msg
    constructor
    · show (s.active.map (fun connection => (connection, msg))).map Prod.fst = s.active
      rw [List.map_map]
      exact List.map_id s.active
    · intro p hp
      simp only [Async.broadcast, List.mem_map] at hp
      obtain ⟨c, -, hc⟩ := hp
      rw [← hc]

/-- C10 witness: the invariant on a concrete wellformed trace, and the
disconnect counts on a concrete manager state. -/
theorem C10_witness :
    ((Async.cmRun Async.cmInit
        [Async.WSOp.connect 1, Async.WSOp.connect 2, Async.WSOp.disconnect 1]).active =
      (Async.cmRun Async.cmInit
        [Async.WSOp.connect 1, Async.WSOp.connect 2, Async.WSOp.disconnect 1]).connected.filter
        (fun w => decide (w ∉ (Async.cmRun Async.cmInit
          [Async.WSOp.connect 1, Async.WSOp.connect 2,
            Async.WSOp.disconnect 1]).disconnected))) ∧
    (Async.cmStep ⟨[5], [5], []⟩ (.disconnect 5)).active.count 5 =
      ([5] : List Nat).count 5 - 1 :=
  ⟨C10_theorem.1 [Async.WSOp.connect 1, Async.WSOp.connect 2, Async.WSOp.disconnect 1]
      (by decide),
   (C10_theorem.2.2.1 ⟨[5], [5], []⟩ 5).2.1⟩
